import Mathlib

/-!
Shallow embedding of the alert engine (src/alerts.py, class AlertManager) and
the portfolio analytics engine (src/analyzer.py, class PortfolioAnalyzer) of
the finance portfolio tracker.

Conventions of the embedding:
- The alert store state is the in-memory list held under the key
  price_alerts of self.alerts; saving to the JSON file mirrors the
  in-memory list, so persistence is modelled as the list itself.
- Python floats used for prices and quantities are modelled as exact
  rationals; where the source performs an unguarded pandas division the
  IEEE outcomes (NaN, plus or minus infinity) are modelled explicitly by
  the PFloat type below.
- fetch_stock_data is an external collaborator: it is a parameter of the
  check cycle, returning either a price, a dict containing an error key,
  or raising an exception (which check_alerts catches).
-/

namespace PortfolioTracker

/-- An alert record, as built by AlertManager.add_alert: fields id, symbol
(uppercased), condition, target_price, notification_type, created_at,
triggered. -/
structure Alert where
  id : Nat
  symbol : String
  condition : String
  target_price : ℚ
  notification_type : String
  created_at : String
  triggered : Bool
deriving DecidableEq, Repr

/-- AlertManager.add_alert: builds the alert dict with id equal to the
current length of price_alerts, uppercases the symbol, sets
triggered to False, appends it, saves, and returns True. The source
performs no validation of condition or target_price. -/
def add_alert (st : List Alert) (symbol condition : String) (target_price : ℚ)
    (notification_type : String) (created_at : String) : List Alert × Bool :=
  let alert : Alert :=
    { id := st.length
      symbol := symbol.toUpper
      condition := condition
      target_price := target_price
      notification_type := notification_type
      created_at := created_at
      triggered := false }
  (st ++ [alert], true)

/-- AlertManager.remove_alert: scans price_alerts in order, deletes the
first record whose id matches and returns True; returns False (leaving the
list unchanged) when no record matches. -/
def remove_alert : List Alert → Nat → List Alert × Bool
  | [], _ => ([], false)
  | a :: rest, alert_id =>
    if a.id = alert_id then (rest, true)
    else
      let r := remove_alert rest alert_id
      (a :: r.1, r.2)

/-- Outcome of fetch_stock_data(symbol) as observed by check_alerts: a
successful dict carrying current_price, a dict containing an error key
(line: if error in stock_data: continue), or a raised exception (caught by
the except clause of the loop body). -/
inductive FetchResult where
  | ok (current_price : ℚ)
  | errorField
  | exn
deriving DecidableEq, Repr

/-- One iteration of the check_alerts loop body for a single alert,
including the activity filter computed at the top of check_alerts
(alerts with triggered=True are not in active_alerts and are not
processed). Returns the updated alert and whether a notification was
emitted (_trigger_alert called). On a fetch error dict or a raised
exception the alert is returned unchanged. -/
def check_one (fetch : String → FetchResult) (a : Alert) : Alert × Bool :=
  if a.triggered then (a, false)
  else
    match fetch a.symbol with
    | FetchResult.ok current_price =>
      if (a.condition = "below" ∧ current_price ≤ a.target_price) ∨
         (a.condition = "above" ∧ a.target_price ≤ current_price) then
        ({ a with triggered := true }, true)
      else (a, false)
    | FetchResult.errorField => (a, false)
    | FetchResult.exn => (a, false)

/-- AlertManager.check_alerts: the filter into active_alerts is computed
once before the loop, and each loop iteration reads and mutates only its
own alert dict, so the whole cycle is the independent per-alert step
check_one applied to every stored alert. Each pair carries the updated
alert and its notification flag. -/
def check_alerts (fetch : String → FetchResult) (st : List Alert) :
    List (Alert × Bool) :=
  st.map (check_one fetch)

/-- The alert list after one check cycle. -/
def check_state (fetch : String → FetchResult) (st : List Alert) : List Alert :=
  (check_alerts fetch st).map Prod.fst

/-- A portfolio position row of the analyzer dataframe: symbol, quantity,
buy_price, current_price. -/
structure Position where
  symbol : String
  quantity : ℚ
  buy_price : ℚ
  current_price : ℚ
deriving DecidableEq, Repr

/-- Sum of quantity * buy_price over the portfolio. -/
def total_investment (l : List Position) : ℚ :=
  (l.map (fun p => p.quantity * p.buy_price)).sum

/-- Sum of quantity * current_price over the portfolio. -/
def current_value_total (l : List Position) : ℚ :=
  (l.map (fun p => p.quantity * p.current_price)).sum

/-- Result record of PortfolioAnalyzer.calculate_basic_metrics. -/
structure BasicMetrics where
  total_investment : ℚ
  current_value : ℚ
  total_gain_loss : ℚ
  gain_loss_percent : ℚ
deriving DecidableEq, Repr

/-- PortfolioAnalyzer.calculate_basic_metrics: the division for
gain_loss_percent is guarded by the conditional expression
if total_investment != 0 else 0. -/
def calculate_basic_metrics (l : List Position) : BasicMetrics :=
  let ti := total_investment l
  let cv := current_value_total l
  let tg := cv - ti
  { total_investment := ti
    current_value := cv
    total_gain_loss := tg
    gain_loss_percent := if ti ≠ 0 then tg / ti * 100 else 0 }

/-- An IEEE-754 double as produced by the unguarded pandas divisions of
calculate_position_metrics: a finite value (tracked exactly as a
rational), +inf, -inf, or NaN. -/
inductive PFloat where
  | finite (q : ℚ)
  | inf
  | neg_inf
  | nan
deriving DecidableEq, Repr

/-- IEEE division of two finite values, as pandas performs it: x/0 is NaN
when x = 0, +inf when x > 0, -inf when x < 0; otherwise exact. -/
def pdiv (a b : ℚ) : PFloat :=
  if b = 0 then
    if a = 0 then PFloat.nan
    else if 0 < a then PFloat.inf
    else PFloat.neg_inf
  else PFloat.finite (a / b)

/-- IEEE multiplication by the finite constant 100: NaN and the infinities
are absorbing. -/
def pmul100 : PFloat → PFloat
  | PFloat.finite q => PFloat.finite (q * 100)
  | PFloat.inf => PFloat.inf
  | PFloat.neg_inf => PFloat.neg_inf
  | PFloat.nan => PFloat.nan

/-- One row of the dataframe returned by
PortfolioAnalyzer.calculate_position_metrics. -/
structure PositionMetrics where
  symbol : String
  quantity : ℚ
  buy_price : ℚ
  current_price : ℚ
  investment : ℚ
  current_value : ℚ
  gain_loss : ℚ
  gain_loss_percent : PFloat
  weight : PFloat
deriving DecidableEq, Repr

/-- One row of calculate_position_metrics, given the column sum of
current_value for the whole dataframe. The two divisions
(gain_loss / investment and current_value / sum) carry no zero-guard in
the source; pandas resolves a zero denominator to NaN or an infinity. -/
def position_row (total_cv : ℚ) (p : Position) : PositionMetrics :=
  let investment := p.quantity * p.buy_price
  let cv := p.quantity * p.current_price
  let gl := cv - investment
  { symbol := p.symbol
    quantity := p.quantity
    buy_price := p.buy_price
    current_price := p.current_price
    investment := investment
    current_value := cv
    gain_loss := gl
    gain_loss_percent := pmul100 (pdiv gl investment)
    weight := pmul100 (pdiv cv total_cv) }

/-- PortfolioAnalyzer.calculate_position_metrics: adds the derived columns
to a copy of the portfolio dataframe, row by row. -/
def calculate_position_metrics (l : List Position) : List PositionMetrics :=
  l.map (position_row (current_value_total l))

/-- gains of calculate_risk_metrics: sum of the gain_loss column
restricted to strictly positive entries. -/
def gains_sum (l : List Position) : ℚ :=
  (((calculate_position_metrics l).filter
    (fun r => 0 < r.gain_loss)).map (fun r => r.gain_loss)).sum

/-- losses of calculate_risk_metrics: absolute value of the sum of the
gain_loss column restricted to strictly negative entries. -/
def losses_sum (l : List Position) : ℚ :=
  |(((calculate_position_metrics l).filter
    (fun r => r.gain_loss < 0)).map (fun r => r.gain_loss)).sum|

/-- The profit-factor expression on the last line of
calculate_risk_metrics: gains / losses if losses != 0 else float(inf).
The value none models float(inf); some q models the finite quotient.
This line only executes when the idxmax call earlier in
calculate_risk_metrics does not raise; see
calculate_risk_metrics_profit_factor for that control flow. -/
def profit_factor (l : List Position) : Option ℚ :=
  if losses_sum l ≠ 0 then some (gains_sum l / losses_sum l) else none

/-- PortfolioAnalyzer.calculate_risk_metrics, restricted to its control
flow and the profit_factor it reports. Before the profit-factor line the
function evaluates the weight column's idxmax; pandas Series.idxmax
(with its default NA-skipping) raises ValueError when no non-NaN entry
remains — an empty portfolio, or one whose weights are all NaN. That
raise (modelled as Except.error) happens before the profit-factor line,
so no profit factor is reported on those inputs; on every other input
the function returns and reports profit_factor. -/
def calculate_risk_metrics_profit_factor (l : List Position) :
    Except Unit (Option ℚ) :=
  if ∀ r ∈ calculate_position_metrics l, r.weight = PFloat.nan then
    Except.error ()
  else
    Except.ok (profit_factor l)

/-! Helper lemmas shared by the claim theorems. -/

/-- A check cycle visits every stored alert and keeps the list length. -/
theorem check_alerts_length (fetch : String → FetchResult) (st : List Alert) :
    (check_alerts fetch st).length = st.length := by
  simp [check_alerts]

/-- The check cycle acts independently on each stored alert. -/
theorem check_alerts_get (fetch : String → FetchResult) (st : List Alert)
    (i : Fin st.length) :
    (check_alerts fetch st).get
      (Fin.cast (check_alerts_length fetch st).symm i) =
      check_one fetch (st.get i) := by
  simp [check_alerts]

/-- On a successful fetch of an untriggered alert, the resulting triggered
flag is exactly the inclusive threshold comparison of the source. -/
theorem check_one_ok_triggered (fetch : String → FetchResult) (a : Alert)
    (p : ℚ) (ha : a.triggered = false)
    (hf : fetch a.symbol = FetchResult.ok p) :
    ((check_one fetch a).1.triggered = true ↔
      (a.condition = "below" ∧ p ≤ a.target_price) ∨
      (a.condition = "above" ∧ a.target_price ≤ p)) := by
  simp only [check_one, ha, if_neg Bool.false_ne_true, hf]
  split_ifs with h
  · simpa using h
  · simp [ha, h]

/-- An alert is notified in a check cycle exactly when its triggered flag
flips in that cycle; an alert that enters the cycle already triggered is
returned unchanged and is not notified. -/
theorem check_one_notified (fetch : String → FetchResult) (a : Alert) :
    (a.triggered = false → (check_one fetch a).2 = (check_one fetch a).1.triggered) ∧
    (a.triggered = true → check_one fetch a = (a, false)) := by
  constructor
  · intro ha
    cases hf : fetch a.symbol with
    | ok p =>
      simp only [check_one, ha, if_neg Bool.false_ne_true, hf]
      split_ifs <;> simp [ha]
    | errorField => simp [check_one, ha, hf]
    | exn => simp [check_one, ha, hf]
  · intro ha
    simp [check_one, ha]

/-- Concrete alert used by the witnesses: untriggered, condition below,
target 100. -/
def below_alert : Alert := ⟨0, "XONE", "below", 100, "desktop", "t0", false⟩

/-- A price source returning 95 for every symbol. -/
def fetch95 : String → FetchResult := fun _ => FetchResult.ok 95

/-- A price source failing with an error dict for every symbol. -/
def fetch_err : String → FetchResult := fun _ => FetchResult.errorField

/-- C1: for every untriggered alert evaluated by check_alerts with a
successful price fetch, an alert with condition below ends the cycle
triggered iff current_price ≤ target_price and an alert with condition
above iff current_price ≥ target_price (both comparisons inclusive);
moreover the notification is emitted exactly when the flag flips. -/
theorem c1_check_all_inclusive_thresholds (fetch : String → FetchResult)
    (st : List Alert) (i : Fin st.length) (p : ℚ)
    (huntrig : (st.get i).triggered = false)
    (hfetch : fetch (st.get i).symbol = FetchResult.ok p) :
    ((st.get i).condition = "below" →
      (((check_alerts fetch st).get
          (Fin.cast (check_alerts_length fetch st).symm i)).1.triggered = true ↔
        p ≤ (st.get i).target_price)) ∧
    ((st.get i).condition = "above" →
      (((check_alerts fetch st).get
          (Fin.cast (check_alerts_length fetch st).symm i)).1.triggered = true ↔
        (st.get i).target_price ≤ p)) ∧
    ((check_alerts fetch st).get
        (Fin.cast (check_alerts_length fetch st).symm i)).2 =
      ((check_alerts fetch st).get
        (Fin.cast (check_alerts_length fetch st).symm i)).1.triggered := by
  rw [check_alerts_get]
  have h := check_one_ok_triggered fetch (st.get i) p huntrig hfetch
  refine ⟨fun hc => ?_, fun hc => ?_,
    (check_one_notified fetch (st.get i)).1 huntrig⟩
  · rw [h, hc]
    simp
  · rw [h, hc]
    simp

/-- C1 witness: the below alert with target 100 triggers at price 95. -/
theorem c1_witness :
    ((check_alerts fetch95 [below_alert]).get
      ⟨0, by simp [check_alerts]⟩).1.triggered = true := by
  have h := (c1_check_all_inclusive_thresholds fetch95 [below_alert]
    ⟨0, by simp⟩ 95 rfl rfl).1 rfl
  exact h.mpr (by norm_num [below_alert])

/-- C7: when the price fetch for an untriggered alert fails — with an
error dict or a raised exception — that alert is returned unchanged (left
untriggered) and unnotified, every other alert is still evaluated by the
same per-alert step, and the cycle still returns a full result list (the
failure never propagates out of check_alerts). -/
theorem c7_fetch_failure_is_local (fetch : String → FetchResult)
    (st : List Alert) (i : Fin st.length)
    (huntrig : (st.get i).triggered = false)
    (hfail : fetch (st.get i).symbol = FetchResult.errorField ∨
             fetch (st.get i).symbol = FetchResult.exn) :
    ((check_alerts fetch st).get
        (Fin.cast (check_alerts_length fetch st).symm i) = (st.get i, false)) ∧
    (∀ j : Fin st.length,
      (check_alerts fetch st).get
        (Fin.cast (check_alerts_length fetch st).symm j) =
        check_one fetch (st.get j)) ∧
    (check_alerts fetch st).length = st.length := by
  refine ⟨?_, fun j => check_alerts_get fetch st j, check_alerts_length fetch st⟩
  rw [check_alerts_get]
  simp only [List.get_eq_getElem] at huntrig hfail
  rcases hfail with hf | hf <;> simp [check_one, huntrig, hf]

/-- C7 witness: with a failing price source the below alert is returned
unchanged and unnotified. -/
theorem c7_witness :
    (check_alerts fetch_err [below_alert]).get
      ⟨0, by simp [check_alerts]⟩ = (below_alert, false) :=
  (c7_fetch_failure_is_local fetch_err [below_alert] ⟨0, by simp⟩ rfl
    (Or.inl rfl)).1

/-- remove_alert only ever deletes records: its result is a sublist of the
stored collection, so every surviving record is one of the previous
records, verbatim. -/
theorem remove_alert_sublist (st : List Alert) (alert_id : Nat) :
    (remove_alert st alert_id).1.Sublist st := by
  induction st with
  | nil => simp [remove_alert]
  | cons a rest ih =>
    by_cases h : a.id = alert_id
    · simp only [remove_alert, if_pos h]
      exact List.Sublist.cons a (List.Sublist.refl rest)
    · simpa [remove_alert, h] using List.Sublist.cons₂ a ih

/-- C6: the triggered flag is monotone and a triggered alert is inert.
A check cycle returns an already-triggered alert unchanged and without a
notification (so repeated cycles never re-trigger or re-notify it,
whatever prices arrive); add_alert leaves all existing records exactly as
they were; remove_alert only deletes records, so no operation ever resets
a triggered flag to false. -/
theorem c6_triggered_is_terminal (fetch : String → FetchResult)
    (st : List Alert) (i : Fin st.length)
    (htrig : (st.get i).triggered = true)
    (symbol condition : String) (target_price : ℚ)
    (notification_type created_at : String) (alert_id : Nat) :
    ((check_alerts fetch st).get
        (Fin.cast (check_alerts_length fetch st).symm i) = (st.get i, false)) ∧
    ((add_alert st symbol condition target_price
        notification_type created_at).1.take st.length = st) ∧
    (remove_alert st alert_id).1.Sublist st := by
  refine ⟨?_, ?_, remove_alert_sublist st alert_id⟩
  · rw [check_alerts_get]
    exact (check_one_notified fetch (st.get i)).2 htrig
  · simp [add_alert]

/-- Concrete already-triggered alert used by the C6 witness. -/
def triggered_alert : Alert := ⟨3, "TRIG", "below", 100, "desktop", "t1", true⟩

/-- C6 witness: a check cycle at price 95 leaves the already-triggered
alert untouched and emits no notification for it. -/
theorem c6_witness :
    (check_alerts fetch95 [triggered_alert]).get
      ⟨0, by simp [check_alerts]⟩ = (triggered_alert, false) :=
  (c6_triggered_is_terminal fetch95 [triggered_alert] ⟨0, by simp⟩ rfl
    "S" "above" 1 "desktop" "t2" 0).1

/-- C9: remove_alert with a stored id reports success and removes exactly
one record — the result is one record shorter and a sublist of the store;
with an id held by no record it reports failure and returns the store
unchanged. -/
theorem c9_remove_alert_spec (st : List Alert) (alert_id : Nat) :
    ((∃ a ∈ st, a.id = alert_id) →
      (remove_alert st alert_id).2 = true ∧
      (remove_alert st alert_id).1.length + 1 = st.length) ∧
    ((∀ a ∈ st, a.id ≠ alert_id) →
      (remove_alert st alert_id).2 = false ∧
      (remove_alert st alert_id).1 = st) ∧
    (remove_alert st alert_id).1.Sublist st := by
  refine ⟨?_, ?_, remove_alert_sublist st alert_id⟩
  · intro hex
    induction st with
    | nil => simp at hex
    | cons a rest ih =>
      by_cases h : a.id = alert_id
      · simp [remove_alert, h]
      · have hex' : ∃ b ∈ rest, b.id = alert_id := by
          rcases hex with ⟨b, hb, hid⟩
          rcases List.mem_cons.mp hb with hba | hbr
          · exact absurd (hba ▸ hid) h
          · exact ⟨b, hbr, hid⟩
        have hih := ih hex'
        have h2 := hih.2
        constructor
        · simpa [remove_alert, h] using hih.1
        · simp only [remove_alert, if_neg h, List.length_cons]
          omega
  · intro hall
    induction st with
    | nil => simp [remove_alert]
    | cons a rest ih =>
      have ha : a.id ≠ alert_id := hall a (by simp)
      have hrest : ∀ b ∈ rest, b.id ≠ alert_id :=
        fun b hb => hall b (by simp [hb])
      have hih := ih hrest
      simp [remove_alert, ha, hih.1, hih.2]

/-- Alerts with a duplicated id, used by the C9 and C10 witnesses. -/
def dup_a : Alert := ⟨1, "AAA", "above", 5, "desktop", "t1", false⟩

/-- Second alert carrying the same id as dup_a. -/
def dup_b : Alert := ⟨1, "BBB", "below", 2, "desktop", "t2", false⟩

/-- C9 witness: removing the stored id 1 from a one-record store succeeds
and empties it; removing the absent id 99 fails and leaves it unchanged. -/
theorem c9_witness :
    ((remove_alert [dup_a] 1).2 = true ∧
      (remove_alert [dup_a] 1).1.length + 1 = 1) ∧
    ((remove_alert [dup_a] 99).2 = false ∧
      (remove_alert [dup_a] 99).1 = [dup_a]) :=
  ⟨(c9_remove_alert_spec [dup_a] 1).1 ⟨dup_a, by simp, rfl⟩,
   (c9_remove_alert_spec [dup_a] 99).2.1 (by decide)⟩

/-- C10: when several records share an id, remove_alert deletes exactly
the first matching record in stored order and reports success, leaving
every later record — including later records with the same id — in
place. -/
theorem c10_remove_first_duplicate (l1 l2 : List Alert) (a : Alert)
    (alert_id : Nat) (hfirst : ∀ b ∈ l1, b.id ≠ alert_id)
    (ha : a.id = alert_id) :
    remove_alert (l1 ++ a :: l2) alert_id = (l1 ++ l2, true) := by
  induction l1 with
  | nil => simp [remove_alert, ha]
  | cons b rest ih =>
    have hb : b.id ≠ alert_id := hfirst b (by simp)
    have hrest : ∀ c ∈ rest, c.id ≠ alert_id :=
      fun c hc => hfirst c (by simp [hc])
    simp [remove_alert, hb, ih hrest]

/-- C10 witness: with two records both carrying id 1, remove_alert 1
deletes the earliest-added one and keeps the later one. -/
theorem c10_witness : remove_alert [dup_a, dup_b] 1 = ([dup_b], true) :=
  c10_remove_first_duplicate [] [dup_b] dup_a 1 (by simp) rfl

/-- C4 counterexample: add_alert accepts a condition outside
above/below together with a negative target price, reports success and
appends (persists) the record — it never fails with a validation error
and never leaves the collection unchanged. -/
theorem c4_counterexample :
    (add_alert [] "TCS" "sideways" (-5) "desktop" "2024-01-01").2 = true ∧
    (add_alert [] "TCS" "sideways" (-5) "desktop" "2024-01-01").1 =
      [⟨0, "TCS".toUpper, "sideways", -5, "desktop", "2024-01-01", false⟩] :=
  ⟨rfl, rfl⟩

/-- C4 amended: add_alert performs no validation at all: for every
symbol, condition and target price (positive or not) it appends exactly
one record — id equal to the previous length, symbol uppercased,
triggered false — leaves every existing record unchanged, and reports
success. -/
theorem c4_add_alert_never_rejects (st : List Alert)
    (symbol condition : String) (target_price : ℚ)
    (notification_type created_at : String) :
    (add_alert st symbol condition target_price
        notification_type created_at).2 = true ∧
    (add_alert st symbol condition target_price
        notification_type created_at).1 =
      st ++ [⟨st.length, symbol.toUpper, condition, target_price,
              notification_type, created_at, false⟩] ∧
    (add_alert st symbol condition target_price
        notification_type created_at).1.take st.length = st :=
  ⟨rfl, rfl, by simp [add_alert]⟩

/-- First state of the id-reuse scenario: one alert added to an empty
store; it receives id 0. -/
def reuse_s1 : List Alert := (add_alert [] "aaa" "above" 100 "desktop" "t1").1

/-- Second state: a second alert is added; it receives id 1. -/
def reuse_s2 : List Alert := (add_alert reuse_s1 "bbb" "below" 50 "desktop" "t2").1

/-- Third state: the alert with id 0 is removed; the survivor keeps id 1. -/
def reuse_s3 : List Alert := (remove_alert reuse_s2 0).1

/-- Fourth state: a third alert is added; add_alert assigns it
id = length of the store, which is 1 again. -/
def reuse_s4 : List Alert := (add_alert reuse_s3 "ccc" "above" 10 "desktop" "t3").1

/-- C5: after add, add, remove id 0, add, the store holds two alerts that
both carry id 1 — the identifier assigned as the current collection
length is reused after a removal and collides with a surviving alert. -/
theorem c5_id_reused_after_removal :
    reuse_s4.map Alert.id = [1, 1] ∧
    ¬ reuse_s4.Pairwise (fun a b => a.id ≠ b.id) := by
  constructor
  · rfl
  · decide

/-- C8: calculate_basic_metrics computes the four defining formulas, with
gain_loss_percent guarded to 0 when total_investment is 0 (in particular
on the empty portfolio). The function is total — no input makes it
raise. -/
theorem c8_basic_metrics_spec (l : List Position) :
    (calculate_basic_metrics l).total_investment =
      (l.map (fun p => p.quantity * p.buy_price)).sum ∧
    (calculate_basic_metrics l).current_value =
      (l.map (fun p => p.quantity * p.current_price)).sum ∧
    (calculate_basic_metrics l).total_gain_loss =
      (calculate_basic_metrics l).current_value -
        (calculate_basic_metrics l).total_investment ∧
    ((calculate_basic_metrics l).total_investment = 0 →
      (calculate_basic_metrics l).gain_loss_percent = 0) ∧
    ((calculate_basic_metrics l).total_investment ≠ 0 →
      (calculate_basic_metrics l).gain_loss_percent =
        (calculate_basic_metrics l).total_gain_loss /
          (calculate_basic_metrics l).total_investment * 100) := by
  refine ⟨rfl, rfl, rfl, ?_, ?_⟩ <;> intro h <;>
    simp only [calculate_basic_metrics, total_investment,
      current_value_total] at h ⊢ <;>
    simp [h]

/-- Concrete winning position used by the analytics witnesses. -/
def demo_position : Position := ⟨"DEMO", 2, 5, 7⟩

/-- C8 witness: the empty portfolio reports gain_loss_percent 0; the
one-position portfolio with investment 10 reports the unguarded
formula. -/
theorem c8_witness :
    (calculate_basic_metrics []).gain_loss_percent = 0 ∧
    (calculate_basic_metrics [demo_position]).gain_loss_percent =
      (calculate_basic_metrics [demo_position]).total_gain_loss /
        (calculate_basic_metrics [demo_position]).total_investment * 100 :=
  ⟨(c8_basic_metrics_spec []).2.2.2.1 (by norm_num [calculate_basic_metrics,
      total_investment, current_value_total]),
   (c8_basic_metrics_spec [demo_position]).2.2.2.2
     (by norm_num [calculate_basic_metrics, total_investment,
       current_value_total, demo_position])⟩

/-- A flat position: bought at 10, currently at 10, gain_loss 0. -/
def flat_position : Position := ⟨"FLAT", 1, 10, 10⟩

/-- A losing position: bought at 10, currently at 8, gain_loss -2. -/
def losing_position : Position := ⟨"LOSS", 1, 10, 8⟩

/-- C2 counterexample: the flat one-position portfolio has a non-NaN
weight, so calculate_risk_metrics returns and reports a profit factor;
both the gain sum and the loss sum are 0, yet that profit factor is
float inf (none), not 0 — the source guards only on the loss sum and
returns infinity whenever it is 0, with or without gains. -/
theorem c2_counterexample :
    gains_sum [flat_position] = 0 ∧
    losses_sum [flat_position] = 0 ∧
    calculate_risk_metrics_profit_factor [flat_position] =
      Except.ok none ∧
    profit_factor [flat_position] = none ∧
    profit_factor [flat_position] ≠ some 0 := by
  have h3 : profit_factor [flat_position] = none := by
    norm_num [profit_factor, losses_sum, calculate_position_metrics,
      position_row, current_value_total, flat_position]
  have hw : ¬ ∀ r ∈ calculate_position_metrics [flat_position],
      r.weight = PFloat.nan := by
    norm_num [calculate_position_metrics, position_row,
      current_value_total, flat_position, pdiv, pmul100]
    decide
  have h2 : calculate_risk_metrics_profit_factor [flat_position] =
      Except.ok none := by
    rw [calculate_risk_metrics_profit_factor, if_neg hw, h3]
  refine ⟨?_, ?_, h2, h3, by simp [h3]⟩ <;>
    norm_num [gains_sum, losses_sum, calculate_position_metrics,
      position_row, current_value_total, flat_position]

/-- C2 amended: when the weight column has no non-NaN entry (the empty
portfolio, or all weights NaN), calculate_risk_metrics raises at its
idxmax call before the profit-factor line, so no profit factor is
reported. On every other input it returns, and the reported
profit_factor is the sum of strictly positive gain_loss values divided
by the absolute sum of strictly negative ones whenever the loss sum is
nonzero, and float inf (none) whenever the loss sum is 0 — regardless
of the gain sum, so a flat nonempty portfolio reports infinity, never
0. -/
theorem c2_profit_factor_spec (l : List Position) :
    ((∀ r ∈ calculate_position_metrics l, r.weight = PFloat.nan) →
      calculate_risk_metrics_profit_factor l = Except.error ()) ∧
    ((∃ r ∈ calculate_position_metrics l, r.weight ≠ PFloat.nan) →
      ((losses_sum l = 0 →
        calculate_risk_metrics_profit_factor l = Except.ok none) ∧
       (losses_sum l ≠ 0 →
        calculate_risk_metrics_profit_factor l =
          Except.ok (some (gains_sum l / losses_sum l))))) := by
  refine ⟨fun hemp => ?_, fun hne => ?_⟩
  · rw [calculate_risk_metrics_profit_factor, if_pos hemp]
  · have hnall : ¬ ∀ r ∈ calculate_position_metrics l,
        r.weight = PFloat.nan := by
      rcases hne with ⟨r, hr, hw⟩
      exact fun hall => hw (hall r hr)
    rw [calculate_risk_metrics_profit_factor, if_neg hnall]
    constructor <;> intro h0 <;> simp [profit_factor, h0]

/-- C2 witness: the empty portfolio makes calculate_risk_metrics raise
before any profit factor is computed; the flat portfolio (loss sum 0)
returns and reports infinity; the losing portfolio (loss sum 2) returns
and reports the finite quotient. -/
theorem c2_witness :
    calculate_risk_metrics_profit_factor [] = Except.error () ∧
    calculate_risk_metrics_profit_factor [flat_position] =
      Except.ok none ∧
    calculate_risk_metrics_profit_factor [losing_position] =
      Except.ok (some (gains_sum [losing_position] /
        losses_sum [losing_position])) :=
  ⟨(c2_profit_factor_spec []).1 (by simp [calculate_position_metrics]),
   ((c2_profit_factor_spec [flat_position]).2
     (by norm_num [calculate_position_metrics, position_row,
       current_value_total, flat_position, pdiv, pmul100]; decide)).1
     (by norm_num [losses_sum, calculate_position_metrics, position_row,
       current_value_total, flat_position]),
   ((c2_profit_factor_spec [losing_position]).2
     (by norm_num [calculate_position_metrics, position_row,
       current_value_total, losing_position, pdiv, pmul100]; decide)).2
     (by norm_num [losses_sum, calculate_position_metrics, position_row,
       current_value_total, losing_position])⟩

/-- calculate_position_metrics keeps one row per position. -/
theorem calculate_position_metrics_length (l : List Position) :
    (calculate_position_metrics l).length = l.length := by
  simp [calculate_position_metrics]

/-- The row of a position is position_row applied to it and to the
portfolio's current-value column sum. -/
theorem calculate_position_metrics_get (l : List Position)
    (i : Fin l.length) :
    (calculate_position_metrics l).get
      (Fin.cast (calculate_position_metrics_length l).symm i) =
      position_row (current_value_total l) (l.get i) := by
  simp [calculate_position_metrics]

/-- With a zero denominator, pdiv resolves to the IEEE sentinel chosen by
the sign of the numerator. -/
theorem pdiv_zero_denom (a b : ℚ) (hb : b = 0) :
    pdiv a b =
      if a = 0 then PFloat.nan
      else if 0 < a then PFloat.inf else PFloat.neg_inf := by
  subst hb
  simp [pdiv]

/-- A position with quantity 0: its investment, current value and the
whole portfolio's current-value sum are all 0. -/
def zero_qty_position : Position := ⟨"ZERO", 0, 5, 7⟩

/-- C3 counterexample: for the quantity-0 position the investment is 0
and the total current value is 0, yet gain_loss_percent and weight are
both NaN — not the 0 the claim demands. -/
theorem c3_counterexample :
    ((calculate_position_metrics [zero_qty_position]).get
        ⟨0, by simp [calculate_position_metrics]⟩).investment = 0 ∧
    current_value_total [zero_qty_position] = 0 ∧
    ((calculate_position_metrics [zero_qty_position]).get
        ⟨0, by simp [calculate_position_metrics]⟩).gain_loss_percent =
      PFloat.nan ∧
    ((calculate_position_metrics [zero_qty_position]).get
        ⟨0, by simp [calculate_position_metrics]⟩).gain_loss_percent ≠
      PFloat.finite 0 ∧
    ((calculate_position_metrics [zero_qty_position]).get
        ⟨0, by simp [calculate_position_metrics]⟩).weight = PFloat.nan ∧
    ((calculate_position_metrics [zero_qty_position]).get
        ⟨0, by simp [calculate_position_metrics]⟩).weight ≠
      PFloat.finite 0 := by
  have hg : ((calculate_position_metrics [zero_qty_position]).get
      ⟨0, by simp [calculate_position_metrics]⟩).gain_loss_percent =
      PFloat.nan := by
    norm_num [calculate_position_metrics, position_row,
      current_value_total, zero_qty_position, pdiv, pmul100]
  have hw : ((calculate_position_metrics [zero_qty_position]).get
      ⟨0, by simp [calculate_position_metrics]⟩).weight = PFloat.nan := by
    norm_num [calculate_position_metrics, position_row,
      current_value_total, zero_qty_position, pdiv, pmul100]
  refine ⟨?_, ?_, hg, by rw [hg]; simp, hw, by rw [hw]; simp⟩ <;>
    norm_num [calculate_position_metrics, position_row,
      current_value_total, zero_qty_position]

/-- C3 amended: calculate_position_metrics carries no zero-guard. When a
position's investment is 0 its gain_loss_percent is the IEEE outcome of
the division — NaN when gain_loss is also 0, +inf for a positive
gain_loss, -inf for a negative one — and when the total current value is
0 every weight is likewise NaN or an infinity; the divisions never raise
(the function is total) but never resolve to 0. -/
theorem c3_unguarded_divisions (l : List Position) (i : Fin l.length) :
    (((calculate_position_metrics l).get
        (Fin.cast (calculate_position_metrics_length l).symm i)).investment
        = 0 →
      ((calculate_position_metrics l).get
        (Fin.cast (calculate_position_metrics_length l).symm i)).gain_loss_percent =
        if ((calculate_position_metrics l).get
            (Fin.cast (calculate_position_metrics_length l).symm i)).gain_loss = 0
        then PFloat.nan
        else if 0 < ((calculate_position_metrics l).get
            (Fin.cast (calculate_position_metrics_length l).symm i)).gain_loss
        then PFloat.inf else PFloat.neg_inf) ∧
    (current_value_total l = 0 →
      ((calculate_position_metrics l).get
        (Fin.cast (calculate_position_metrics_length l).symm i)).weight =
        if ((calculate_position_metrics l).get
            (Fin.cast (calculate_position_metrics_length l).symm i)).current_value = 0
        then PFloat.nan
        else if 0 < ((calculate_position_metrics l).get
            (Fin.cast (calculate_position_metrics_length l).symm i)).current_value
        then PFloat.inf else PFloat.neg_inf) := by
  rw [calculate_position_metrics_get]
  constructor
  · intro h0
    simp only [position_row] at h0 ⊢
    rw [pdiv_zero_denom _ _ h0]
    split_ifs <;> simp [pmul100]
  · intro h0
    simp only [position_row]
    rw [pdiv_zero_denom _ _ h0]
    split_ifs <;> simp [pmul100]

/-- C3 witness: at the quantity-0 position both unguarded divisions
resolve to NaN, as the amended claim states. -/
theorem c3_witness :
    ((calculate_position_metrics [zero_qty_position]).get
        (Fin.cast (calculate_position_metrics_length [zero_qty_position]).symm
          ⟨0, by simp⟩)).gain_loss_percent = PFloat.nan ∧
    ((calculate_position_metrics [zero_qty_position]).get
        (Fin.cast (calculate_position_metrics_length [zero_qty_position]).symm
          ⟨0, by simp⟩)).weight = PFloat.nan := by
  have h := c3_unguarded_divisions [zero_qty_position] ⟨0, by simp⟩
  have h1 := h.1 (by norm_num [calculate_position_metrics, position_row,
    current_value_total, zero_qty_position])
  have h2 := h.2 (by norm_num [current_value_total, zero_qty_position])
  refine ⟨h1.trans ?_, h2.trans ?_⟩ <;>
    norm_num [calculate_position_metrics, position_row,
      current_value_total, zero_qty_position]

end PortfolioTracker
